import Mathlib

/-!
Shallow embedding of the `dotstore` library (`src/lib.rs`).

The library resolves a platform base directory for a `StoreType` via the
external `dirs` crate, joins a dot-prefixed relative fragment onto it, and
creates the resulting directory (and missing ancestors) idempotently.

Modelling choices:
* Paths are strings (`Path::display` of a path built from a `&str` is that
  string); segment-level reasoning works on the underlying `List Char`.
* The external `dirs` crate is an environment `DirsEnv`: one `Option Path`
  per query function, mirroring the Rust signatures `fn() -> Option<PathBuf>`.
* The filesystem is an association list from segment lists to entries
  (directory or non-directory); `fs::create_dir_all` is modelled with
  `mkdir -p` semantics over the segments, `Path::exists` as a lookup.
* Fallible operations return `Except IoError`, mutation is explicit state
  passing of the filesystem.
-/

namespace Dotstore

abbrev Path := String

/-- A filesystem entry is a directory or a non-directory (file). -/
inductive Entry
  | dir
  | file
deriving DecidableEq, Repr

/-- A filesystem: an association list from paths (as segment lists) to entries. -/
abbrev Fs := List (List (List Char) × Entry)

/-- Lookup of a path (given by its segments) in the filesystem. -/
def fsLookup : Fs → List (List Char) → Option Entry
  | [], _ => none
  | (k, e) :: rest, q => if k = q then some e else fsLookup rest q

/-- Split a character sequence at `/` separators, keeping empty segments
(the behavior of splitting a string on a separator). -/
def splitSegsAux : List Char → List (List Char)
  | [] => [[]]
  | c :: cs =>
    if c = '/' then [] :: splitSegsAux cs
    else
      match splitSegsAux cs with
      | [] => [[c]]
      | s :: rest => (c :: s) :: rest

/-- The path components of a path string: split at `/` and drop empty
segments (leading `/`, doubled separators). -/
def splitPath (p : Path) : List (List Char) := (splitSegsAux p.data).filter (fun s => s ≠ [])

/-- Does the path string denote an absolute path (leading `/`)? -/
def isAbsolute (p : Path) : Bool :=
  match p.data with
  | [] => false
  | c :: _ => c = '/'

/-- Does the path string end with a `/` separator? -/
def endsWithSep (p : Path) : Bool :=
  match p.data.getLast? with
  | some c => c = '/'
  | none => false

/-- `PathBuf::join` / `push` on string paths: an absolute right operand
replaces the base, otherwise it is appended with a separator as needed. -/
def joinPath (base rel : Path) : Path :=
  if isAbsolute rel then rel
  else if base == "" || endsWithSep base then base ++ rel
  else base ++ "/" ++ rel

/-- The store-dir expression shared by `create_store` and `custom_store`:
`root.join(format!(".{}", target.display()))`. -/
def dotJoin (root target : Path) : Path := joinPath root ("." ++ target)

/-- I/O errors the modelled filesystem primitives can report. -/
inductive IoError
  | notADirectory (path : List (List Char))
deriving DecidableEq, Repr

/-- `fs::create_dir_all` walked over the remaining segments: `acc` is the
already-visited ancestor, each missing component is created as a directory,
a non-directory component is an error. -/
def create_dir_all_aux : Fs → List (List Char) → List (List Char) → Except IoError Fs
  | fs, _, [] => .ok fs
  | fs, acc, s :: rest =>
    let cur := acc ++ [s]
    match fsLookup fs cur with
    | some Entry.dir => create_dir_all_aux fs cur rest
    | some Entry.file => .error (IoError.notADirectory cur)
    | none => create_dir_all_aux ((cur, Entry.dir) :: fs) cur rest

/-- `fs::create_dir_all(path)`: create the directory and every missing
ancestor; succeed if it already exists as a directory. -/
def create_dir_all (fs : Fs) (p : Path) : Except IoError Fs :=
  create_dir_all_aux fs [] (splitPath p)

/-- `Path::exists`: some entry occupies the path. -/
def pathExists (fs : Fs) (p : Path) : Bool := (fsLookup fs (splitPath p)).isSome

/-- `create_dir` (src/lib.rs:83-89): if the path does not exist, create it
recursively; any existing entry means nothing is done and `Ok` is returned. -/
def create_dir (fs : Fs) (path : Path) : Except IoError Fs :=
  if pathExists fs path then .ok fs
  else create_dir_all fs path

/-- `StoreType` (src/lib.rs:34-55). -/
inductive StoreType
  | Home
  | Config
  | ConfigLocal
  | Executable
  | Audio
  | Cache
  | Data
  | DataLocal
  | Desktop
  | Download
  | Document
  | Font
  | Picture
  | Preference
  | Public
  | Runtime
  | State
  | Template
  | Video
deriving DecidableEq, Repr

/-- The answers of the external `dirs` crate on the current machine: one
`Option Path` per query function, mirroring `fn() -> Option<PathBuf>`.
Absence (an unset variable, a platform without the concept) is `none`. -/
structure DirsEnv where
  home_dir : Option Path
  config_dir : Option Path
  config_local_dir : Option Path
  executable_dir : Option Path
  audio_dir : Option Path
  cache_dir : Option Path
  data_dir : Option Path
  data_local_dir : Option Path
  desktop_dir : Option Path
  download_dir : Option Path
  document_dir : Option Path
  font_dir : Option Path
  picture_dir : Option Path
  preference_dir : Option Path
  public_dir : Option Path
  runtime_dir : Option Path
  state_dir : Option Path
  template_dir : Option Path
  video_dir : Option Path
deriving DecidableEq, Repr

/-- `StoreType::path` (src/lib.rs:57-81): return the `dirs` query function
for the store kind (here: the accessor of the corresponding environment
field). It takes no filesystem and can only answer `some` path or `none`. -/
def StoreType.path : StoreType → (DirsEnv → Option Path)
  | .Home => DirsEnv.home_dir
  | .Config => DirsEnv.config_dir
  | .ConfigLocal => DirsEnv.config_local_dir
  | .Executable => DirsEnv.executable_dir
  | .Audio => DirsEnv.audio_dir
  | .Cache => DirsEnv.cache_dir
  | .Data => DirsEnv.data_dir
  | .DataLocal => DirsEnv.data_local_dir
  | .Desktop => DirsEnv.desktop_dir
  | .Download => DirsEnv.download_dir
  | .Document => DirsEnv.document_dir
  | .Font => DirsEnv.font_dir
  | .Picture => DirsEnv.picture_dir
  | .Preference => DirsEnv.preference_dir
  | .Public => DirsEnv.public_dir
  | .Runtime => DirsEnv.runtime_dir
  | .State => DirsEnv.state_dir
  | .Template => DirsEnv.template_dir
  | .Video => DirsEnv.video_dir

/-- `create_store` (src/lib.rs:91-101): resolve the base directory for the
kind; if present, join the dot-prefixed fragment and create the directory,
returning `Ok(Some(dir))`; if absent, return `Ok(None)`. -/
def create_store (store : StoreType) (path : Path) (env : DirsEnv) (fs : Fs) :
    Except IoError (Option Path × Fs) :=
  let dir_fn := StoreType.path store
  match dir_fn env with
  | some root =>
    let store_dir := dotJoin root path
    match create_dir fs store_dir with
    | .ok fs' => .ok (some store_dir, fs')
    | .error e => .error e
  | none => .ok (none, fs)

/-- `audio_store` (src/lib.rs:104-106). -/
def audio_store (path : Path) (env : DirsEnv) (fs : Fs) : Except IoError (Option Path × Fs) :=
  create_store StoreType.Audio path env fs

/-- `cache_store` (src/lib.rs:109-111). -/
def cache_store (path : Path) (env : DirsEnv) (fs : Fs) : Except IoError (Option Path × Fs) :=
  create_store StoreType.Cache path env fs

/-- `config_store` (src/lib.rs:114-116). -/
def config_store (path : Path) (env : DirsEnv) (fs : Fs) : Except IoError (Option Path × Fs) :=
  create_store StoreType.Config path env fs

/-- `local_config_store` (src/lib.rs:119-121). -/
def local_config_store (path : Path) (env : DirsEnv) (fs : Fs) : Except IoError (Option Path × Fs) :=
  create_store StoreType.ConfigLocal path env fs

/-- `data_store` (src/lib.rs:124-126). -/
def data_store (path : Path) (env : DirsEnv) (fs : Fs) : Except IoError (Option Path × Fs) :=
  create_store StoreType.Data path env fs

/-- `local_data_store` (src/lib.rs:129-131). -/
def local_data_store (path : Path) (env : DirsEnv) (fs : Fs) : Except IoError (Option Path × Fs) :=
  create_store StoreType.DataLocal path env fs

/-- `desktop_store` (src/lib.rs:134-136). -/
def desktop_store (path : Path) (env : DirsEnv) (fs : Fs) : Except IoError (Option Path × Fs) :=
  create_store StoreType.Desktop path env fs

/-- `document_store` (src/lib.rs:139-141). -/
def document_store (path : Path) (env : DirsEnv) (fs : Fs) : Except IoError (Option Path × Fs) :=
  create_store StoreType.Document path env fs

/-- `download_store` (src/lib.rs:144-146). -/
def download_store (path : Path) (env : DirsEnv) (fs : Fs) : Except IoError (Option Path × Fs) :=
  create_store StoreType.Download path env fs

/-- `executable_store` (src/lib.rs:149-151): defined unconditionally, with
no platform gating in the source. -/
def executable_store (path : Path) (env : DirsEnv) (fs : Fs) : Except IoError (Option Path × Fs) :=
  create_store StoreType.Executable path env fs

/-- `font_store` (src/lib.rs:154-156). -/
def font_store (path : Path) (env : DirsEnv) (fs : Fs) : Except IoError (Option Path × Fs) :=
  create_store StoreType.Font path env fs

/-- `home_store` (src/lib.rs:159-161). -/
def home_store (path : Path) (env : DirsEnv) (fs : Fs) : Except IoError (Option Path × Fs) :=
  create_store StoreType.Home path env fs

/-- `picture_store` (src/lib.rs:164-166). -/
def picture_store (path : Path) (env : DirsEnv) (fs : Fs) : Except IoError (Option Path × Fs) :=
  create_store StoreType.Picture path env fs

/-- `preference_store` (src/lib.rs:169-171). -/
def preference_store (path : Path) (env : DirsEnv) (fs : Fs) : Except IoError (Option Path × Fs) :=
  create_store StoreType.Preference path env fs

/-- `public_store` (src/lib.rs:174-176). -/
def public_store (path : Path) (env : DirsEnv) (fs : Fs) : Except IoError (Option Path × Fs) :=
  create_store StoreType.Public path env fs

/-- `runtime_store` (src/lib.rs:179-181): defined unconditionally, with no
platform gating in the source. -/
def runtime_store (path : Path) (env : DirsEnv) (fs : Fs) : Except IoError (Option Path × Fs) :=
  create_store StoreType.Runtime path env fs

/-- `state_store` (src/lib.rs:184-186). -/
def state_store (path : Path) (env : DirsEnv) (fs : Fs) : Except IoError (Option Path × Fs) :=
  create_store StoreType.State path env fs

/-- `template_store` (src/lib.rs:189-191). -/
def template_store (path : Path) (env : DirsEnv) (fs : Fs) : Except IoError (Option Path × Fs) :=
  create_store StoreType.Template path env fs

/-- `video_store` (src/lib.rs:194-196). -/
def video_store (path : Path) (env : DirsEnv) (fs : Fs) : Except IoError (Option Path × Fs) :=
  create_store StoreType.Video path env fs

/-- `custom_store` (src/lib.rs:219-228): join the dot-prefixed target onto
the caller-supplied root and create it; no environment is consulted. -/
def custom_store (root_path : Path) (target : Path) (fs : Fs) :
    Except IoError (Option Path × Fs) :=
  let root : Path := root_path
  let store_dir := dotJoin root target
  match create_dir fs store_dir with
  | .ok fs' => .ok (some store_dir, fs')
  | .error e => .error e

/-- Join segments back into one character sequence with `/` separators. -/
def joinSegs : List (List Char) → List Char
  | [] => []
  | [s] => s
  | s :: ss => s ++ '/' :: joinSegs ss

/-- Prefix a dot onto the first segment only, leaving later segments
unchanged. -/
def dotFirst : List (List Char) → List (List Char)
  | [] => []
  | s :: ss => ('.' :: s) :: ss

/-- Follows the spec's words: split the relative fragment into path
segments, prefix a literal `.` onto the first segment only, and rebuild the
relative path. -/
def specDotFragment (frag : Path) : Path :=
  ⟨joinSegs (dotFirst (splitSegsAux frag.data))⟩

/-- Follows the spec's words: the store path is the base joined with the
fragment whose first segment alone gained the dot. -/
def specStoreDir (base frag : Path) : Path := joinPath base (specDotFragment frag)

/-- An environment in which no `dirs` query has an answer (every location
absent). -/
def envNone : DirsEnv :=
  ⟨none, none, none, none, none, none, none, none, none, none,
   none, none, none, none, none, none, none, none, none⟩

/-- An environment whose home directory is `/home/user` and every other
location is absent. -/
def env0 : DirsEnv :=
  ⟨some "/home/user", none, none, none, none, none, none, none, none, none,
   none, none, none, none, none, none, none, none, none⟩

/-- The filesystem produced by creating `/home/user/.barracuda` on an empty
filesystem. -/
def fsHome : Fs :=
  [(["home".data, "user".data, ".barracuda".data], Entry.dir),
   (["home".data, "user".data], Entry.dir),
   (["home".data], Entry.dir)]

/-- A filesystem in which a non-directory entry occupies `/home/user/.cfg`. -/
def fsFile : Fs := [(["home".data, "user".data, ".cfg".data], Entry.file)]

/-- The filesystem produced by creating `/d/.app` on an empty filesystem. -/
def fsD : Fs := [(["d".data, ".app".data], Entry.dir), (["d".data], Entry.dir)]

/-- The filesystem produced by creating
`/home/user/workspace/middle-earth/.eregion` on an empty filesystem. -/
def fsEregion : Fs :=
  [(["home".data, "user".data, "workspace".data, "middle-earth".data, ".eregion".data], Entry.dir),
   (["home".data, "user".data, "workspace".data, "middle-earth".data], Entry.dir),
   (["home".data, "user".data, "workspace".data], Entry.dir),
   (["home".data, "user".data], Entry.dir),
   (["home".data], Entry.dir)]

/-- Splitting a character sequence always yields at least one segment. -/
theorem splitSegsAux_ne_nil (cs : List Char) : splitSegsAux cs ≠ [] := by
  induction cs with
  | nil => simp [splitSegsAux]
  | cons c cs ih =>
    unfold splitSegsAux
    split
    · simp
    · split <;> simp

/-- Rebuilding after pushing a character onto the first segment pushes that
character onto the rebuilt sequence. -/
theorem joinSegs_cons_cons (c : Char) (s : List Char) (rest : List (List Char)) :
    joinSegs ((c :: s) :: rest) = c :: joinSegs (s :: rest) := by
  cases rest with
  | nil => rfl
  | cons t ts => rfl

/-- Splitting at separators and rebuilding is the identity. -/
theorem joinSegs_splitSegsAux (cs : List Char) : joinSegs (splitSegsAux cs) = cs := by
  induction cs with
  | nil => rfl
  | cons c cs ih =>
    unfold splitSegsAux
    by_cases hc : c = '/'
    · rw [if_pos hc]
      cases h : splitSegsAux cs with
      | nil => exact absurd h (splitSegsAux_ne_nil cs)
      | cons s rest =>
        rw [h] at ih
        subst hc
        show joinSegs ([] :: s :: rest) = '/' :: cs
        show '/' :: joinSegs (s :: rest) = '/' :: cs
        rw [ih]
    · rw [if_neg hc]
      cases h : splitSegsAux cs with
      | nil => exact absurd h (splitSegsAux_ne_nil cs)
      | cons s rest =>
        rw [h] at ih
        show joinSegs ((c :: s) :: rest) = c :: cs
        rw [joinSegs_cons_cons, ih]

/-- Dotting the first segment of a split sequence and rebuilding prepends a
single dot character. -/
theorem joinSegs_dotFirst_splitSegsAux (cs : List Char) :
    joinSegs (dotFirst (splitSegsAux cs)) = '.' :: cs := by
  have hj := joinSegs_splitSegsAux cs
  cases h : splitSegsAux cs with
  | nil => exact absurd h (splitSegsAux_ne_nil cs)
  | cons s rest =>
    rw [h] at hj
    show joinSegs (('.' :: s) :: rest) = '.' :: cs
    rw [joinSegs_cons_cons, hj]

/-- The spec-side fragment (dot on the first segment only) is exactly the
code-side fragment `format!(".{}", frag)`. -/
theorem specDotFragment_eq (frag : Path) : specDotFragment frag = "." ++ frag := by
  cases frag with
  | mk cs => exact congrArg String.mk (joinSegs_dotFirst_splitSegsAux cs)

/-- A successful walk of `create_dir_all_aux` over a non-empty segment list
leaves the full path as a directory. -/
theorem create_dir_all_aux_ok_lookup (segs : List (List Char)) :
    ∀ (fs : Fs) (acc : List (List Char)) (fs' : Fs),
      segs ≠ [] → create_dir_all_aux fs acc segs = Except.ok fs' →
      fsLookup fs' (acc ++ segs) = some Entry.dir := by
  induction segs with
  | nil => intro fs acc fs' hne _; exact absurd rfl hne
  | cons s rest ih =>
    intro fs acc fs' _ h
    rw [show acc ++ s :: rest = (acc ++ [s]) ++ rest by simp]
    simp only [create_dir_all_aux] at h
    cases hl : fsLookup fs (acc ++ [s]) with
    | none =>
      rw [hl] at h
      cases rest with
      | nil =>
        simp only [create_dir_all_aux, Except.ok.injEq] at h
        subst h
        simp [fsLookup]
      | cons t ts => exact ih _ _ _ (by simp) h
    | some e =>
      rw [hl] at h
      cases e with
      | dir =>
        cases rest with
        | nil =>
          simp only [create_dir_all_aux, Except.ok.injEq] at h
          subst h
          simpa using hl
        | cons t ts => exact ih _ _ _ (by simp) h
      | file => exact Except.noConfusion h

/-- A successful `create_dir` is idempotent: running it again from the
resulting filesystem changes nothing and succeeds. -/
theorem create_dir_ok_idem (fs : Fs) (d : Path) (fs' : Fs)
    (h : create_dir fs d = Except.ok fs') : create_dir fs' d = Except.ok fs' := by
  unfold create_dir at h ⊢
  by_cases hex : pathExists fs d = true
  · rw [if_pos hex] at h
    injection h with h
    subst h
    rw [if_pos hex]
  · rw [if_neg hex] at h
    unfold create_dir_all at h
    cases hs : splitPath d with
    | nil =>
      rw [hs] at h
      simp only [create_dir_all_aux, Except.ok.injEq] at h
      subst h
      by_cases hex2 : pathExists fs d = true
      · rw [if_pos hex2]
      · rw [if_neg hex2]
        unfold create_dir_all
        rw [hs]
        rfl
    | cons s rest =>
      rw [hs] at h
      have hl := create_dir_all_aux_ok_lookup (s :: rest) fs [] fs' (by simp) h
      simp only [List.nil_append] at hl
      have hex' : pathExists fs' d = true := by
        unfold pathExists
        rw [hs, hl]
        rfl
      rw [if_pos hex']

/-- A successful `create_dir` on a path not occupied by a file leaves the
path as a directory. -/
theorem create_dir_ok_lookup (fs : Fs) (d : Path) (fs' : Fs)
    (h : create_dir fs d = Except.ok fs') (hne : splitPath d ≠ [])
    (hnf : fsLookup fs (splitPath d) ≠ some Entry.file) :
    fsLookup fs' (splitPath d) = some Entry.dir := by
  unfold create_dir at h
  by_cases hex : pathExists fs d = true
  · rw [if_pos hex] at h
    injection h with h
    subst h
    unfold pathExists at hex
    cases he : fsLookup fs (splitPath d) with
    | none => rw [he] at hex; simp at hex
    | some e =>
      cases e with
      | dir => rfl
      | file => exact absurd he hnf
  · rw [if_neg hex] at h
    unfold create_dir_all at h
    have := create_dir_all_aux_ok_lookup (splitPath d) fs [] fs' hne h
    simpa using this

/-- The path a successful `create_store` returns is determined by the
resolved base and the fragment alone. -/
theorem create_store_ok_shape (store : StoreType) (p : Path) (env : DirsEnv) (fs : Fs)
    (r : Option Path) (fs' : Fs) (h : create_store store p env fs = Except.ok (r, fs')) :
    r = (StoreType.path store env).map (fun root => dotJoin root p) := by
  simp only [create_store] at h
  split at h
  next root heq =>
    split at h
    next fs2 hcd =>
      simp only [Except.ok.injEq, Prod.mk.injEq] at h
      rw [← h.1, heq]
      rfl
    next e hcd => exact Except.noConfusion h
  next heq =>
    simp only [Except.ok.injEq, Prod.mk.injEq] at h
    rw [← h.1, heq]
    rfl

/-- Claim C1: for every base directory and every non-empty relative
fragment, the store path prefixes a literal dot onto the first path segment
of the fragment only and joins the result onto the base; in particular
`barracuda` under `/home/user` yields `/home/user/.barracuda` and
`settings/user/local` under `/home/user/project` yields
`/home/user/project/.settings/user/local`, later segments unchanged. -/
theorem dot_first_segment_rule (base frag : Path) (_hfrag : frag ≠ "") :
    dotJoin base frag = specStoreDir base frag ∧
    dotJoin "/home/user" "barracuda" = "/home/user/.barracuda" ∧
    dotJoin "/home/user/project" "settings/user/local" =
      "/home/user/project/.settings/user/local" := by
  refine ⟨?_, rfl, rfl⟩
  unfold dotJoin specStoreDir
  rw [specDotFragment_eq]

/-- Witness for claim C1 at base `/home/user`, fragment `barracuda`. -/
theorem dot_first_segment_rule_witness :
    ("barracuda" : Path) ≠ "" ∧
    dotJoin "/home/user" "barracuda" = specStoreDir "/home/user" "barracuda" :=
  ⟨by decide, (dot_first_segment_rule "/home/user" "barracuda" (by decide)).1⟩

/-- Counterexample to claim C2: with every platform location absent, the
`home_store` entry point does not abort; it returns the ordinary
absent-location value `Ok(None)` for the caller to branch on. -/
theorem strict_policy_counterexample :
    home_store "project" envNone [] = Except.ok (none, []) := rfl

/-- Claim C2 (amended): when the platform resolver yields no base directory
for the kind, the store operation returns the ordinary successful value
`Ok(None)` — not an error and not a fatal abort. -/
theorem resolver_absent_not_fatal (store : StoreType) (p : Path) (env : DirsEnv) (fs : Fs)
    (h : StoreType.path store env = none) :
    (create_store store p env fs).isOk = true ∧
    (create_store store p env fs).toOption = some (none, fs) := by
  simp only [create_store, h]
  exact ⟨rfl, rfl⟩

/-- Witness for claim C2 (amended) at kind `Font` in the empty environment. -/
theorem resolver_absent_not_fatal_witness :
    (create_store StoreType.Font "f" envNone []).isOk = true ∧
    (create_store StoreType.Font "f" envNone []).toOption = some (none, ([] : Fs)) :=
  resolver_absent_not_fatal StoreType.Font "f" envNone [] rfl

/-- Counterexample to claim C3: with a non-directory entry occupying the
computed target `/home/user/.cfg`, the store operation succeeds and returns
the path instead of returning an I/O failure. -/
theorem occupied_target_counterexample :
    create_store StoreType.Home "cfg" env0 fsFile =
      Except.ok (some "/home/user/.cfg", fsFile) := rfl

/-- Claim C3 (amended): when the computed target path is occupied by any
existing filesystem entry — a non-directory included — the store operation
succeeds, returns the target path, and leaves the filesystem exactly as it
was; the existence pre-check skips creation entirely. -/
theorem occupied_target_succeeds_unchanged (store : StoreType) (p root : Path)
    (env : DirsEnv) (fs : Fs) (e : Entry)
    (hroot : StoreType.path store env = some root)
    (hocc : fsLookup fs (splitPath (dotJoin root p)) = some e) :
    create_store store p env fs = Except.ok (some (dotJoin root p), fs) := by
  have hex : pathExists fs (dotJoin root p) = true := by
    unfold pathExists
    rw [hocc]
    rfl
  simp only [create_store, hroot, create_dir, hex]
  rfl

/-- Witness for claim C3 (amended): a file occupies `/home/user/.cfg` and
`create_store` succeeds without touching the filesystem. -/
theorem occupied_target_succeeds_unchanged_witness :
    create_store StoreType.Home "cfg" env0 fsFile =
      Except.ok (some (dotJoin "/home/user" "cfg"), fsFile) :=
  occupied_target_succeeds_unchanged StoreType.Home "cfg" "/home/user" env0 fsFile
    Entry.file rfl rfl

/-- Claim C4: every store operation is idempotent — a second call with the
same inputs on the filesystem produced by a successful first call succeeds,
returns the same path, and leaves the filesystem (hence any contents inside
the directory) exactly as it was. -/
theorem store_operations_idempotent :
    (∀ (store : StoreType) (p : Path) (env : DirsEnv) (fs : Fs) (r : Option Path) (fs' : Fs),
        create_store store p env fs = Except.ok (r, fs') →
        create_store store p env fs' = Except.ok (r, fs')) ∧
    (∀ (root target : Path) (fs : Fs) (r : Option Path) (fs' : Fs),
        custom_store root target fs = Except.ok (r, fs') →
        custom_store root target fs' = Except.ok (r, fs')) := by
  constructor
  · intro store p env fs r fs' h
    simp only [create_store] at h ⊢
    split at h
    next root heq =>
      split at h
      next fs2 hcd =>
        simp only [Except.ok.injEq, Prod.mk.injEq] at h
        obtain ⟨h1, h2⟩ := h
        subst h2
        rw [create_dir_ok_idem fs (dotJoin root p) fs2 hcd, ← h1]
      next e hcd => exact Except.noConfusion h
    next heq =>
      simp only [Except.ok.injEq, Prod.mk.injEq] at h
      obtain ⟨h1, h2⟩ := h
      subst h2
      rw [← h1]
  · intro root target fs r fs' h
    simp only [custom_store] at h ⊢
    split at h
    next fs2 hcd =>
      simp only [Except.ok.injEq, Prod.mk.injEq] at h
      obtain ⟨h1, h2⟩ := h
      subst h2
      rw [create_dir_ok_idem fs (dotJoin root target) fs2 hcd, ← h1]
    next e hcd => exact Except.noConfusion h

/-- Witness for claim C4: creating `/home/user/.barracuda` a second time,
from the filesystem the first call produced, returns the same path and the
same filesystem. -/
theorem store_operations_idempotent_witness :
    create_store StoreType.Home "barracuda" env0 fsHome =
      Except.ok (some "/home/user/.barracuda", fsHome) :=
  store_operations_idempotent.1 StoreType.Home "barracuda" env0 []
    (some "/home/user/.barracuda") fsHome rfl

/-- Claim C5: `custom_store` bypasses the platform resolver — its inputs are
only the caller-supplied root and fragment (no environment argument at all),
and on the documented input it yields
`/home/user/workspace/middle-earth/.eregion` and leaves it existing as a
directory. -/
theorem custom_store_bypass (fs : Fs) (r : Option Path) (fs' : Fs)
    (h : custom_store "/home/user/workspace/middle-earth" "eregion" fs = Except.ok (r, fs'))
    (hnf : fsLookup fs (splitPath "/home/user/workspace/middle-earth/.eregion") ≠
      some Entry.file) :
    r = some "/home/user/workspace/middle-earth/.eregion" ∧
    fsLookup fs' (splitPath "/home/user/workspace/middle-earth/.eregion") =
      some Entry.dir := by
  have hdj : dotJoin "/home/user/workspace/middle-earth" "eregion" =
      "/home/user/workspace/middle-earth/.eregion" := rfl
  simp only [custom_store, hdj] at h
  split at h
  next fs2 hcd =>
    simp only [Except.ok.injEq, Prod.mk.injEq] at h
    obtain ⟨h1, h2⟩ := h
    subst h2
    exact ⟨h1.symm, create_dir_ok_lookup fs _ fs2 hcd (by decide) hnf⟩
  next e hcd => exact Except.noConfusion h

/-- Witness for claim C5: running `custom_store` on the empty filesystem
creates the directory. -/
theorem custom_store_bypass_witness :
    fsLookup fsEregion (splitPath "/home/user/workspace/middle-earth/.eregion") =
      some Entry.dir :=
  (custom_store_bypass [] (some "/home/user/workspace/middle-earth/.eregion") fsEregion
    rfl (by decide)).2

/-- Counterexample to claim C6: `executable_store` is offered and callable
in an environment whose platform defines no executable directory — the call
reaches the resolver for `Executable`, which answers absent, and the entry
point returns `Ok(None)` instead of being excluded at build time. -/
theorem platform_gating_counterexample :
    executable_store "tool" envNone [] = Except.ok (none, []) ∧
    StoreType.path StoreType.Executable envNone = none := ⟨rfl, rfl⟩

/-- Claim C6 (amended): every store-kind entry point — `executable_store`
and `runtime_store` included — is offered unconditionally on every platform
and delegates to `create_store`; when the platform defines no base
directory for the kind the call returns `Ok(None)` rather than being a
build-time error. -/
theorem entry_points_unconditional (p : Path) (env : DirsEnv) (fs : Fs) :
    executable_store p env fs = create_store StoreType.Executable p env fs ∧
    runtime_store p env fs = create_store StoreType.Runtime p env fs ∧
    (StoreType.path StoreType.Executable env = none →
      executable_store p env fs = Except.ok (none, fs)) ∧
    (StoreType.path StoreType.Runtime env = none →
      runtime_store p env fs = Except.ok (none, fs)) := by
  refine ⟨rfl, rfl, ?_, ?_⟩
  · intro h
    show create_store StoreType.Executable p env fs = _
    simp only [create_store, h]
  · intro h
    show create_store StoreType.Runtime p env fs = _
    simp only [create_store, h]

/-- Witness for claim C6 (amended) in the empty environment. -/
theorem entry_points_unconditional_witness :
    executable_store "t" envNone [] = Except.ok (none, []) ∧
    runtime_store "t" envNone [] = Except.ok (none, []) :=
  ⟨(entry_points_unconditional "t" envNone []).2.2.1 rfl,
   (entry_points_unconditional "t" envNone []).2.2.2 rfl⟩

/-- Claim C7: base-directory resolution is a pure query — `StoreType.path`
takes no filesystem and returns no error (its codomain is an optional
path); for every kind it answers exactly the platform's query for that
kind, and its only outcomes are an absolute base path or absence. -/
theorem resolver_pure_dispatch (env : DirsEnv) :
    StoreType.path StoreType.Home env = env.home_dir ∧
    StoreType.path StoreType.Config env = env.config_dir ∧
    StoreType.path StoreType.ConfigLocal env = env.config_local_dir ∧
    StoreType.path StoreType.Executable env = env.executable_dir ∧
    StoreType.path StoreType.Audio env = env.audio_dir ∧
    StoreType.path StoreType.Cache env = env.cache_dir ∧
    StoreType.path StoreType.Data env = env.data_dir ∧
    StoreType.path StoreType.DataLocal env = env.data_local_dir ∧
    StoreType.path StoreType.Desktop env = env.desktop_dir ∧
    StoreType.path StoreType.Download env = env.download_dir ∧
    StoreType.path StoreType.Document env = env.document_dir ∧
    StoreType.path StoreType.Font env = env.font_dir ∧
    StoreType.path StoreType.Picture env = env.picture_dir ∧
    StoreType.path StoreType.Preference env = env.preference_dir ∧
    StoreType.path StoreType.Public env = env.public_dir ∧
    StoreType.path StoreType.Runtime env = env.runtime_dir ∧
    StoreType.path StoreType.State env = env.state_dir ∧
    StoreType.path StoreType.Template env = env.template_dir ∧
    StoreType.path StoreType.Video env = env.video_dir ∧
    (∀ k : StoreType, StoreType.path k env = none ∨
      ∃ b : Path, StoreType.path k env = some b) := by
  refine ⟨rfl, rfl, rfl, rfl, rfl, rfl, rfl, rfl, rfl, rfl, rfl, rfl, rfl, rfl, rfl, rfl,
    rfl, rfl, rfl, ?_⟩
  intro k
  cases hk : StoreType.path k env with
  | none => exact Or.inl rfl
  | some b => exact Or.inr ⟨b, rfl⟩

/-- Claim C8: the returned store path is a deterministic function of the
environment, kind and fragment — two successful calls from any two
filesystem states return the same path. -/
theorem store_path_deterministic (store : StoreType) (p : Path) (env : DirsEnv)
    (fs1 fs2 : Fs) (r1 r2 : Option Path) (fs1' fs2' : Fs)
    (h1 : create_store store p env fs1 = Except.ok (r1, fs1'))
    (h2 : create_store store p env fs2 = Except.ok (r2, fs2')) :
    r1 = r2 := by
  rw [create_store_ok_shape store p env fs1 r1 fs1' h1,
      create_store_ok_shape store p env fs2 r2 fs2' h2]

/-- Witness for claim C8: two successful calls from different filesystem
states return the same path. -/
theorem store_path_deterministic_witness :
    (some "/home/user/.barracuda" : Option Path) = some "/home/user/.barracuda" :=
  store_path_deterministic StoreType.Home "barracuda" env0 [] fsHome
    (some "/home/user/.barracuda") (some "/home/user/.barracuda") fsHome fsHome rfl rfl

/-- Claim C9: `custom_store` never returns `Ok(None)` — every successful
return carries `Some` path. -/
theorem custom_store_ok_isSome (root_path target : Path) (fs : Fs) (r : Option Path)
    (fs' : Fs) (h : custom_store root_path target fs = Except.ok (r, fs')) :
    r.isSome = true := by
  simp only [custom_store] at h
  split at h
  next fs2 hcd =>
    simp only [Except.ok.injEq, Prod.mk.injEq] at h
    rw [← h.1]
    rfl
  next e hcd => exact Except.noConfusion h

/-- Witness for claim C9 at root `/d`, target `app`. -/
theorem custom_store_ok_isSome_witness :
    (some "/d/.app" : Option Path).isSome = true :=
  custom_store_ok_isSome "/d" "app" [] (some "/d/.app") fsD rfl

/-- Claim C10: when the platform resolver yields no base directory for the
kind, `create_store` returns the successful value `Ok(None)` and the
filesystem is returned exactly as it was — no mutation happens. -/
theorem resolver_absent_returns_ok_none (store : StoreType) (p : Path) (env : DirsEnv)
    (fs : Fs) (h : StoreType.path store env = none) :
    create_store store p env fs = Except.ok (none, fs) := by
  simp only [create_store, h]

/-- Witness for claim C10 at kind `Executable` on a non-empty filesystem. -/
theorem resolver_absent_returns_ok_none_witness :
    create_store StoreType.Executable "cli" envNone fsHome = Except.ok (none, fsHome) :=
  resolver_absent_returns_ok_none StoreType.Executable "cli" envNone fsHome rfl

end Dotstore
